import Mathlib

/-!
Shallow embedding of the validation & computation engine of
`vpps-reportcards` (`src/excelParser.js`, parse pipeline of `parseExcel`,
lines 103-395, together with the schema shapes of
`src/config/templates.js`).  Cells are the trimmed strings produced by the
normalizer (line 128); marks are modelled as rationals.  Each
`errors.push` / `warnings.push` site of the source is tagged with one
`DiagKind` constructor so that theorems can speak about which diagnostic a
code path emits; the `row` field of a pushed object is modelled by `Locus`
(`Locus.colRef n` stands for the string `Column <encode_col n>`).
-/

namespace Vpps

/-- A JS value stored in `student.info`: the trimmed cell string, or the
number it was coerced to when the field is declared numeric (line 193). -/
inductive JSVal where
  | str : String → JSVal
  | num : ℚ → JSVal
deriving DecidableEq, Repr

/-- The `row` field of a pushed diagnostic: either a numeric row number or a
`Column <letter>` reference; `colRef n` keeps the numeric argument
`rowIdx + 1` passed to `XLSX.utils.encode_col`. -/
inductive Locus where
  | rowNum : Nat → Locus
  | colRef : Nat → Locus
deriving DecidableEq, Repr

/-- One constructor per `errors.push` / `warnings.push` site of
`excelParser.js`, identifying the kind of diagnostic that site emits. -/
inductive DiagKind where
  | EmptyRequiredField
  | TypeMismatch
  | MissingColumn
  | UnmappedSubject
  | RequiredSubjectBlank
  | UnmappedComponent
  | ColumnNotFound
  | BlankTreatedAsZero
  | AbsentTreatedAsZero
  | NonNumericMark
  | NegativeMark
  | ExceedsComponentMax
  | SubjectTotalExceedsMax
  | ChoiceGroupViolation
  | NoData
  | StructuralError
deriving DecidableEq, Repr

/-- A diagnostic object `{row, field, message}` as pushed by the source,
tagged with the push site that produced it. -/
structure Diag where
  kind : DiagKind
  row : Locus
  field : String
  message : String
deriving DecidableEq, Repr

/-- One entry of `template.studentFields` (`templates.js` lines 7-19);
`isNumber` records whether `type === "number"`. -/
structure FieldDef where
  label : String
  excelHeader : String
  isNumber : Bool
deriving DecidableEq, Repr

/-- One entry of `template.subjects`.  `componentMax = none` models a
subject object with no `componentMax` property at all; `some cm` models a
present mapping (whose per-component entries may still be absent). -/
structure Subject where
  key : String
  label : String
  maxMarks : ℚ
  components : List String
  componentMax : Option (List (String × ℚ))
  optional : Bool := false
  choiceGroup : Option String := none
deriving DecidableEq, Repr

/-- One entry of `template.choiceGroups`. -/
structure ChoiceGroupDef where
  min : Nat
  max : Nat
  label : String
deriving DecidableEq, Repr

/-- One entry of `template.grading.divisions`. -/
structure Division where
  name : String
  threshold : ℚ
deriving DecidableEq, Repr

/-- `template.grading` (`templates.js` lines 28-35). -/
structure Grading where
  passPercent : ℚ
  divisions : List Division
deriving DecidableEq, Repr

/-- The template schema consumed by the parse pipeline.  JS object literals
with unique keys are modelled as association lists looked up with
`List.lookup`. -/
structure Template where
  headerRow : Nat := 1
  studentFields : List (String × FieldDef)
  subjects : List Subject
  columnMappings : List (String × List (String × String))
  choiceGroups : List (String × ChoiceGroupDef)
  grading : Grading
deriving DecidableEq, Repr

/-- `row[i]` where an out-of-range access (JS `undefined`) behaves like the
empty string: every use site either replaces `undefined` by `""` (line 169)
or treats it as blank (lines 242, 288). -/
def cellAt (row : List String) (i : Nat) : String :=
  (row.get? i).getD ""

/-- Whitespace as far as the trimming in this pipeline is concerned. -/
def isSpaceChar (c : Char) : Bool :=
  c = ' ' ∨ c = '\t' ∨ c = '\n' ∨ c = '\r'

/-- JS `String.prototype.trim` on the character list of the string. -/
def jsTrim (s : String) : String :=
  ⟨((s.data.dropWhile isSpaceChar).reverse.dropWhile isSpaceChar).reverse⟩

def asciiLowerChar (c : Char) : Char :=
  if 'A' ≤ c ∧ c ≤ 'Z' then Char.ofNat (c.toNat + 32) else c

/-- JS `String.prototype.toLowerCase` on the ASCII headers this domain
uses. -/
def jsLower (s : String) : String :=
  ⟨s.data.map asciiLowerChar⟩

def asciiUpperChar (c : Char) : Char :=
  if 'a' ≤ c ∧ c ≤ 'z' then Char.ofNat (c.toNat - 32) else c

/-- JS `String.prototype.toUpperCase` on the ASCII mark cells this domain
uses. -/
def jsUpper (s : String) : String :=
  ⟨s.data.map asciiUpperChar⟩

/-- The header index of lines 139-142: keys are lowercased headers, and a
later occurrence of the same lowercased header overwrites an earlier one,
so lookup returns the last matching index.  `key` is the already lowercased
string the source passes to the subscript. -/
def headerIndexLookup (headers : List String) (key : String) : Option Nat :=
  ((headers.enum.filter (fun p => jsLower p.2 == key)).getLast?).map (fun p => p.1)

/-- Numeric value of a digit run, most significant digit first. -/
def digitsVal (cs : List Char) : ℚ :=
  cs.foldl (fun n c => n * 10 + ((c.toNat - 48 : ℕ) : ℚ)) 0

/-- Models JS `Number(s)` for a trimmed string on the decimal-literal
fragment this workbook domain uses: optional sign, integer digits, optional
fractional digits; `""` maps to 0 (`Number("") === 0`), anything else to
`none` (NaN).  Exponent/hex forms never occur in mark cells and are
conservatively `none`. -/
def jsNum (s : String) : Option ℚ :=
  if s = "" then some 0
  else
    let sgn : ℚ := match s.toList with
      | '-' :: _ => -1
      | _ => 1
    let body : List Char := match s.toList with
      | '-' :: cs => cs
      | '+' :: cs => cs
      | cs => cs
    let ip := body.takeWhile (fun c => c != '.')
    let rest := body.dropWhile (fun c => c != '.')
    match rest with
    | [] =>
        if ip ≠ [] ∧ ip.all Char.isDigit then some (sgn * digitsVal ip) else none
    | _ :: fp =>
        if (ip ≠ [] ∨ fp ≠ []) ∧ ip.all Char.isDigit ∧ fp.all Char.isDigit then
          some (sgn * (digitsVal ip + digitsVal fp / (10 : ℚ) ^ fp.length))
        else none

/-- Line 271: `subject.componentMax ? subject.componentMax[component] :
subject.maxMarks`.  `none` is JS `undefined`: the mapping is present but
has no entry for this component. -/
def resolveMax (s : Subject) (comp : String) : Option ℚ :=
  match s.componentMax with
  | some cm => cm.lookup comp
  | none => some s.maxMarks

/-- JS truthiness of the resolved max in `maxVal && num > maxVal`
(line 307): `undefined` and `0` are falsy. -/
def qTruthy : Option ℚ → Bool
  | some m => m != 0
  | none => false

/-- The diagnostic `field` string for a component, `subject.key + "." +
component`. -/
def compField (s : Subject) (comp : String) : String :=
  s.key ++ "." ++ comp

/-- Result of scoring one component of a selected subject: the value stored
in `subjectMarks[component]` and the diagnostics pushed for it. -/
structure CompOut where
  value : Option ℚ
  errs : List Diag
  warns : List Diag
deriving DecidableEq, Repr

/-- Lines 296-314 once `raw` is a number `num` (directly, or `0` substituted
for a blank or absent cell): record the value, flagging a negative mark or,
failing that, a value above a truthy resolved max. -/
def scoreNum (loc : Locus) (s : Subject) (comp : String) (maxVal : Option ℚ)
    (num : ℚ) (warns : List Diag) : CompOut :=
  let errs : List Diag :=
    if num < 0 then
      [⟨.NegativeMark, loc, compField s comp,
        s!"{s.label} {comp}: marks cannot be negative."⟩]
    else if qTruthy maxVal ∧ num > maxVal.getD 0 then
      [⟨.ExceedsComponentMax, loc, compField s comp,
        s!"{s.label} {comp}: exceeds max marks."⟩]
    else []
  { value := some num, errs := errs, warns := warns }

/-- Lines 269-314: score one component of a selected subject. -/
def scoreComponent (headers row : List String) (rowIdx : Nat)
    (s : Subject) (mapping : List (String × String)) (comp : String) : CompOut :=
  let loc := Locus.colRef (rowIdx + 1)
  let maxVal := resolveMax s comp
  match mapping.lookup comp with
  | none =>
      { value := none, errs := [],
        warns := [⟨.UnmappedComponent, loc, compField s comp,
          s!"No column header mapped for {s.label} to {comp}."⟩] }
  | some colHeader =>
      match headerIndexLookup headers (jsLower colHeader) with
      | none =>
          { value := none,
            errs := [⟨.ColumnNotFound, loc, compField s comp,
              s!"Column {colHeader} not found in headers."⟩],
            warns := [] }
      | some colIdx =>
          let raw := cellAt row colIdx
          if jsTrim raw = "" then
            scoreNum loc s comp maxVal 0
              [⟨.BlankTreatedAsZero, loc, compField s comp,
                s!"{s.label} {comp} is blank, treated as 0."⟩]
          else if jsUpper (jsTrim raw) = "AB" then
            scoreNum loc s comp maxVal 0
              [⟨.AbsentTreatedAsZero, loc, compField s comp,
                s!"{s.label} {comp} is marked AB (Absent), treated as 0."⟩]
          else
            match jsNum raw with
            | none =>
                { value := none,
                  errs := [⟨.NonNumericMark, loc, compField s comp,
                    s!"{s.label} {comp}: expected number, got {raw}."⟩],
                  warns := [] }
            | some num => scoreNum loc s comp maxVal num []

/-- `subjectMarks` together with its `_total`, `_max` and `_percentage`
fields (lines 229, 325-327). -/
structure SubjScore where
  components : List (String × Option ℚ)
  total : ℚ
  maxM : ℚ
  percentage : ℚ
deriving DecidableEq, Repr

/-- Lines 237-247, the first pass over one component: it is non-blank when
its mapped header resolves to a column whose cell trims non-empty; an
unmapped header or unresolved index counts as blank for this test. -/
def componentNonBlank (headers row : List String)
    (mapping : List (String × String)) (comp : String) : Bool :=
  match (mapping.lookup comp).bind (fun h => headerIndexLookup headers (jsLower h)) with
  | none => false
  | some i => jsTrim (cellAt row i) != ""

/-- `allBlank` after the first pass over all components of a subject. -/
def allBlank (headers row : List String)
    (mapping : List (String × String)) (s : Subject) : Bool :=
  s.components.all (fun c => !(componentNonBlank headers row mapping c))

/-- Outcome of the subject loop body (lines 218-341) for one subject. -/
inductive SubjRes where
  | noMapping
  | skippedOptional
  | requiredBlank
  | selected (score : SubjScore) (errs warns : List Diag) (hasCompErr : Bool)
deriving DecidableEq, Repr

/-- `subjectMarks` after the second pass: the stored value of every
component, in declaration order (lines 275, 283, 300, 312). -/
def compValues (headers row : List String) (rowIdx : Nat) (s : Subject)
    (mapping : List (String × String)) : List (String × Option ℚ) :=
  s.components.map (fun c => (c, (scoreComponent headers row rowIdx s mapping c).value))

/-- `subjectTotal` after the second pass: only `some` values were added
(line 313 runs exactly when a value is stored; blank and absent cells store
`some 0` and add 0). -/
def selTotal (headers row : List String) (rowIdx : Nat) (s : Subject)
    (mapping : List (String × String)) : ℚ :=
  ((compValues headers row rowIdx s mapping).filterMap Prod.snd).sum

/-- The `subjectMarks` object completed with `_total`, `_max` and
`_percentage` (lines 325-327). -/
def selScore (headers row : List String) (rowIdx : Nat) (s : Subject)
    (mapping : List (String × String)) : SubjScore :=
  { components := compValues headers row rowIdx s mapping,
    total := selTotal headers row rowIdx s mapping,
    maxM := s.maxMarks,
    percentage :=
      if s.maxMarks > 0 then selTotal headers row rowIdx s mapping / s.maxMarks * 100
      else 0 }

/-- `componentErrors` accumulated over the second pass, in component order. -/
def selErrs (headers row : List String) (rowIdx : Nat) (s : Subject)
    (mapping : List (String × String)) : List Diag :=
  s.components.flatMap (fun c => (scoreComponent headers row rowIdx s mapping c).errs)

/-- `componentWarnings` accumulated over the second pass. -/
def selWarns (headers row : List String) (rowIdx : Nat) (s : Subject)
    (mapping : List (String × String)) : List Diag :=
  s.components.flatMap (fun c => (scoreComponent headers row rowIdx s mapping c).warns)

/-- `hasComponentError` after the second pass: it is set at each component
error push, so it holds exactly when some component pushed an error. -/
def selFlag (headers row : List String) (rowIdx : Nat) (s : Subject)
    (mapping : List (String × String)) : Bool :=
  s.components.any (fun c => !(scoreComponent headers row rowIdx s mapping c).errs.isEmpty)

/-- The subject loop body for one subject. -/
def evalSubject (tpl : Template) (headers row : List String) (rowIdx : Nat)
    (s : Subject) : SubjRes :=
  match tpl.columnMappings.lookup s.key with
  | none => .noMapping
  | some mapping =>
      if allBlank headers row mapping s then
        if s.optional then .skippedOptional else .requiredBlank
      else
        .selected (selScore headers row rowIdx s mapping)
          (selErrs headers row rowIdx s mapping)
          (selWarns headers row rowIdx s mapping)
          (selFlag headers row rowIdx s mapping)

/-- Whether the subject ends up in `selectedSubjects` (line 263). -/
def isSelected (tpl : Template) (headers row : List String) (rowIdx : Nat)
    (s : Subject) : Bool :=
  match evalSubject tpl headers row rowIdx s with
  | .selected _ _ _ _ => true
  | _ => false

/-- The per-row `selectedSubjects` list, in schema order. -/
def selectedSubjects (tpl : Template) (headers row : List String) (rowIdx : Nat) :
    List Subject :=
  tpl.subjects.filter (isSelected tpl headers row rowIdx)

/-- The score a subject stores into `student.marks`, if it is selected. -/
def scoreOf (tpl : Template) (headers row : List String) (rowIdx : Nat)
    (s : Subject) : Option SubjScore :=
  match evalSubject tpl headers row rowIdx s with
  | .selected sc _ _ _ => some sc
  | _ => none

/-- `student.marks`: one entry per selected subject (line 338), keyed by the
subject key, in schema order. -/
def marksOf (tpl : Template) (headers row : List String) (rowIdx : Nat) :
    List (String × SubjScore) :=
  tpl.subjects.filterMap (fun s =>
    (scoreOf tpl headers row rowIdx s).map (fun sc => (s.key, sc)))

/-- Errors one subject contributes to the row's error list: the
required-blank error (lines 253-261), or the component errors followed by
the subject-total overflow error (lines 320-336). -/
def subjectErrs (tpl : Template) (headers row : List String)
    (rowIdx rowNum : Nat) (s : Subject) : List Diag :=
  match evalSubject tpl headers row rowIdx s with
  | .noMapping => []
  | .skippedOptional => []
  | .requiredBlank =>
      [⟨.RequiredSubjectBlank, .rowNum rowNum, s.key,
        s!"Required subject {s.label} is completely blank."⟩]
  | .selected sc errs _ _ =>
      errs ++
        (if sc.total > s.maxMarks then
          [⟨.SubjectTotalExceedsMax, .colRef (rowIdx + 1), s.key,
            s!"{s.label}: total exceeds max marks."⟩]
        else [])

/-- Warnings one subject contributes: the missing-mapping warning
(lines 220-227) or the accumulated component warnings (line 322). -/
def subjectWarns (tpl : Template) (headers row : List String)
    (rowIdx rowNum : Nat) (s : Subject) : List Diag :=
  match evalSubject tpl headers row rowIdx s with
  | .noMapping =>
      [⟨.UnmappedSubject, .rowNum rowNum, s.key,
        s!"No column mapping defined for subject {s.label}. Skipped."⟩]
  | .skippedOptional => []
  | .requiredBlank => []
  | .selected _ _ warns _ => warns

/-- Whether this subject sets `rowHasError`: at the required-blank push
(line 259), via `hasComponentError` (lines 317-319), or at the total
overflow push (line 335). -/
def subjectFlag (tpl : Template) (headers row : List String) (rowIdx : Nat)
    (s : Subject) : Bool :=
  match evalSubject tpl headers row rowIdx s with
  | .noMapping => false
  | .skippedOptional => false
  | .requiredBlank => true
  | .selected sc _ _ hasErr => hasErr || decide (sc.total > s.maxMarks)

/-- `groupCounts[g]` after the subject loop (lines 264-265): each selected
subject with a JS-truthy `choiceGroup` increments its group's tally, so an
empty-string group id never counts. -/
def groupCount (sel : List Subject) (g : String) : Nat :=
  (sel.filter (fun s => s.choiceGroup == some g && g != "")).length

/-- The choice-group violation diagnostic pushed at lines 347-352. -/
def mkChoiceDiag (rowIdx : Nat) (d : ChoiceGroupDef) (count : Nat) : Diag :=
  ⟨.ChoiceGroupViolation, .colRef (rowIdx + 1), "choiceGroup",
    s!"{d.label} must select exactly {d.min} (selected {count})."⟩

/-- Phase D choice-group validation (lines 344-354): one error per declared
group whose tally falls outside the inclusive `[min, max]` range. -/
def choiceErrs (tpl : Template) (headers row : List String) (rowIdx : Nat) :
    List Diag :=
  tpl.choiceGroups.flatMap (fun p =>
    let count := groupCount (selectedSubjects tpl headers row rowIdx) p.1
    if count < p.2.min ∨ count > p.2.max then [mkChoiceDiag rowIdx p.2 count]
    else [])

/-- Resolved column index of an identity field (line 161). -/
def fieldColIdx (headers : List String) (fd : FieldDef) : Option Nat :=
  headerIndexLookup headers (jsLower fd.excelHeader)

/-- Diagnostics one identity field pushes (lines 168-195); empty when its
column is missing (the field only joins `missingRequiredCols` then). -/
def fieldErrs (headers row : List String) (rowIdx : Nat)
    (fieldKey : String) (fd : FieldDef) : List Diag :=
  match fieldColIdx headers fd with
  | none => []
  | some i =>
      let value := jsTrim (cellAt row i)
      (if value = "" then
        [⟨.EmptyRequiredField, .colRef (rowIdx + 1), fieldKey,
          s!"{fd.label} is empty."⟩]
      else []) ++
      (if fd.isNumber ∧ value ≠ "" ∧ (jsNum value).isNone then
        [⟨.TypeMismatch, .colRef (rowIdx + 1), fieldKey,
          s!"{fd.label} should be a number."⟩]
      else [])

/-- The value stored in `student.info[fieldKey]` (lines 168-197): the
trimmed string, overwritten by the parsed number when the field is numeric,
non-empty and the coercion succeeded. -/
def fieldValue (headers row : List String) (fd : FieldDef) : Option JSVal :=
  match fieldColIdx headers fd with
  | none => none
  | some i =>
      let value := jsTrim (cellAt row i)
      if fd.isNumber ∧ value ≠ "" then
        match jsNum value with
        | some n => some (.num n)
        | none => some (.str value)
      else some (.str value)

/-- `missingRequiredCols` after the Phase A loop (lines 163-166). -/
def missingCols (tpl : Template) (headers : List String) : List String :=
  tpl.studentFields.filterMap (fun p =>
    if (fieldColIdx headers p.2).isNone then some p.2.excelHeader else none)

/-- `student.info` after the Phase A loop. -/
def infoOf (tpl : Template) (headers row : List String) : List (String × JSVal) :=
  tpl.studentFields.filterMap (fun p =>
    (fieldValue headers row p.2).map (fun v => (p.1, v)))

/-- Errors pushed during the Phase A loop, in field order. -/
def phaseAErrs (tpl : Template) (headers row : List String) (rowIdx : Nat) :
    List Diag :=
  tpl.studentFields.flatMap (fun p => fieldErrs headers row rowIdx p.1 p.2)

/-- Whether Phase A set `rowHasError` (lines 179, 191): exactly when some
field pushed an error. -/
def phaseAFlag (tpl : Template) (headers row : List String) (rowIdx : Nat) : Bool :=
  tpl.studentFields.any (fun p => !(fieldErrs headers row rowIdx p.1 p.2).isEmpty)

/-- `parseFloat(x.toFixed(2))` modelled as exact rational rounding to two
decimal places, ties rounded up. -/
def round2 (q : ℚ) : ℚ :=
  ((round (q * 100) : ℤ) : ℚ) / 100

/-- The percentage-to-grade ladder of `computeGrade` (lines 406-415). -/
def computeGrade (pct : ℚ) : String :=
  if pct ≥ 91 then "A1"
  else if pct ≥ 81 then "A2"
  else if pct ≥ 71 then "B1"
  else if pct ≥ 61 then "B2"
  else if pct ≥ 51 then "C1"
  else if pct ≥ 41 then "C2"
  else if pct ≥ 33 then "D"
  else "E"

/-- Lines 377-387: the first division (declared order, no sorting) whose
threshold the percentage meets or exceeds; `if (divLabel)` drops an
empty-string division name. -/
def findDivision (divs : List Division) (pct : ℚ) : Option String :=
  match divs.find? (fun d => decide (pct ≥ d.threshold)) with
  | some d => if d.name = "" then none else some d.name
  | none => none

/-- `failedSubjects` (lines 357-363): labels of selected subjects whose own
percentage is below `grading.passPercent`; the `sm &&` guard makes a
missing marks entry count as not failed. -/
def failedSubjectsOf (tpl : Template) (headers row : List String) (rowIdx : Nat) :
    List String :=
  ((selectedSubjects tpl headers row rowIdx).filter (fun s =>
    match (marksOf tpl headers row rowIdx).lookup s.key with
    | some sm => decide (sm.percentage < tpl.grading.passPercent)
    | none => false)).map (fun s => s.label)

/-- `student.computed` in the non-aborted path (lines 356-390). -/
structure Computed where
  subjects : List Subject
  totalMarks : ℚ
  maxMarks : ℚ
  percentage : ℚ
  grade : String
  failedSubjects : List String
  resultText : String
  division : Option String
  hasErrors : Bool
deriving DecidableEq, Repr

/-- One emitted student record.  `computed = none` models the Phase A abort
path (lines 200-210), where the `computed` object stays empty, so in
particular no `hasErrors` flag is ever written. -/
structure Student where
  row : Nat
  info : List (String × JSVal)
  marks : List (String × SubjScore)
  computed : Option Computed
deriving DecidableEq, Repr

/-- The record plus the diagnostics one data row pushes. -/
structure RowOut where
  student : Student
  errs : List Diag
  warns : List Diag
deriving DecidableEq, Repr

/-- The body of `dataRows.forEach` (lines 152-393) for one data row. -/
def processRow (tpl : Template) (headers row : List String)
    (rowIdx headerRow : Nat) : RowOut :=
  let rowNum := rowIdx + headerRow + 1
  let info := infoOf tpl headers row
  let errsA := phaseAErrs tpl headers row rowIdx
  let missing := missingCols tpl headers
  if missing ≠ [] then
    let msg := "Missing required columns: " ++ String.intercalate ", " missing
    { student := { row := rowNum, info := info, marks := [], computed := none },
      errs := errsA ++ [⟨.MissingColumn, .rowNum rowNum, "info", msg⟩],
      warns := [] }
  else
    let sel := selectedSubjects tpl headers row rowIdx
    let marks := marksOf tpl headers row rowIdx
    let gTotal := (marks.map (fun p => p.2.total)).sum
    let gMax := (sel.map (fun s => s.maxMarks)).sum
    let errsB := tpl.subjects.flatMap (subjectErrs tpl headers row rowIdx rowNum)
    let warnsB := tpl.subjects.flatMap (subjectWarns tpl headers row rowIdx rowNum)
    let errsD := choiceErrs tpl headers row rowIdx
    let flag := phaseAFlag tpl headers row rowIdx
      || tpl.subjects.any (subjectFlag tpl headers row rowIdx)
      || !errsD.isEmpty
    let pct := if gMax > 0 then round2 (gTotal / gMax * 100) else 0
    let failed := failedSubjectsOf tpl headers row rowIdx
    { student :=
        { row := rowNum, info := info, marks := marks,
          computed := some
            { subjects := sel, totalMarks := gTotal, maxMarks := gMax,
              percentage := pct, grade := computeGrade pct,
              failedSubjects := failed,
              resultText := if failed ≠ [] then "FAILED" else "PASSED",
              division :=
                if failed ≠ [] then none
                else findDivision tpl.grading.divisions pct,
              hasErrors := flag } },
      errs := errsA ++ errsB ++ errsD,
      warns := warnsB }

/-- `{students, errors, warnings}` as returned by `parseExcel`. -/
structure ParseResult where
  students : List Student
  errors : List Diag
  warnings : List Diag
deriving DecidableEq, Repr

/-- `maxCols` (lines 112-113): the length of the longest input row. -/
def maxColsOf (grid : List (List String)) : Nat :=
  grid.foldl (fun m r => Nat.max m r.length) 0

/-- Transposed column `c` of the raw horizontal grid (lines 126-129), with
`undefined` cells replaced by `""` and every cell trimmed. -/
def columnOf (grid : List (List String)) (c : Nat) : List String :=
  grid.map (fun r => jsTrim ((r.get? c).getD ""))

/-- `rawRows` (lines 124-135): the transposed columns, where a column other
than column 0 that is entirely blank is dropped silently. -/
def normalizeGrid (grid : List (List String)) : List (List String) :=
  ((List.range (maxColsOf grid)).map (fun c => (c, columnOf grid c))).filterMap
    (fun p => if p.1 ≠ 0 ∧ p.2.all (fun v => v = "") then none else some p.2)

/-- `template.headerRow || 1` (line 93). -/
def effHeaderRow (tpl : Template) : Nat :=
  if tpl.headerRow = 0 then 1 else tpl.headerRow

/-- The parse pipeline of `parseExcel` from the decoded cell grid on
(lines 103-395).  Reading the workbook and resolving the target sheet are
external I/O and happen before this function. -/
def parseExcel (tpl : Template) (grid : List (List String)) : ParseResult :=
  if grid.isEmpty then
    { students := [],
      errors := [⟨.NoData, .rowNum 0, "data", "No data found in sheet."⟩],
      warnings := [] }
  else if maxColsOf grid < 2 then
    { students := [],
      errors := [⟨.StructuralError, .rowNum 0, "data",
        "No student data columns found. Ensure you are filling data into columns."⟩],
      warnings := [] }
  else
    let headerRow := effHeaderRow tpl
    let rawRows := normalizeGrid grid
    let headers := ((rawRows.get? (headerRow - 1)).getD []).map jsTrim
    let dataRows := rawRows.drop headerRow
    let outs := dataRows.enum.map (fun p => processRow tpl headers p.2 p.1 headerRow)
    { students := outs.map (fun o => o.student),
      errors := outs.flatMap (fun o => o.errs),
      warnings := outs.flatMap (fun o => o.warns) }

/-! ### General list lemmas used by the verification -/

lemma length_flatMap_singleton {α β : Type _} (l : List α) (f : α → List β)
    (p : α → Bool) (h : ∀ x, (f x).length = if p x then 1 else 0) :
    (l.flatMap f).length = l.countP p := by
  induction l with
  | nil => rfl
  | cons a t ih =>
      simp only [List.flatMap_cons, List.length_append, List.countP_cons, ih, h a]
      split <;> omega

lemma lookup_eq_none_of_not_mem_keys {β : Type _} (key : String)
    (l : List (String × β)) (h : key ∉ l.map Prod.fst) : l.lookup key = none := by
  induction l with
  | nil => rfl
  | cons a t ih =>
      simp only [List.map_cons, List.mem_cons, not_or] at h
      cases a with
      | mk k b =>
          simp only [List.lookup_cons]
          have : (key == k) = false := beq_eq_false_iff_ne.mpr h.1
          rw [this]
          exact ih h.2

lemma lookup_keyed_filterMap {β : Type _} (g : Subject → Option β)
    (l : List Subject) (s : Subject) (hs : s ∈ l)
    (hnd : (l.map Subject.key).Nodup) :
    (l.filterMap (fun t => (g t).map (fun a => (t.key, a)))).lookup s.key = g s := by
  induction l with
  | nil => cases hs
  | cons t ts ih =>
      simp only [List.map_cons, List.nodup_cons] at hnd
      rcases List.mem_cons.mp hs with heq | hmem
      · subst heq
        cases hg : g s with
        | some a =>
            rw [List.filterMap_cons_some (by rw [hg]; rfl), List.lookup_cons]
            simp [hg]
        | none =>
            have hkeys : s.key ∉ (ts.filterMap
                (fun t => (g t).map (fun a => (t.key, a)))).map Prod.fst := by
              intro hmemk
              apply hnd.1
              rcases List.mem_map.mp hmemk with ⟨pr, hpr, hfst⟩
              rcases List.mem_filterMap.mp hpr with ⟨u, hu, hmap⟩
              cases hgu : g u with
              | none => rw [hgu] at hmap; cases hmap
              | some b =>
                  rw [hgu] at hmap
                  cases hmap
                  exact hfst ▸ List.mem_map.mpr ⟨u, hu, rfl⟩
            rw [List.filterMap_cons_none (by rw [hg]; rfl)]
            exact lookup_eq_none_of_not_mem_keys s.key _ hkeys
      · have hne : s.key ≠ t.key := by
          intro hk
          exact hnd.1 (hk ▸ List.mem_map.mpr ⟨s, hmem, rfl⟩)
        cases hg : g t with
        | none =>
            rw [List.filterMap_cons_none (by rw [hg]; rfl)]
            exact ih hmem hnd.2
        | some a =>
            rw [List.filterMap_cons_some (by rw [hg]; rfl), List.lookup_cons,
              beq_eq_false_iff_ne.mpr hne]
            exact ih hmem hnd.2

lemma lookup_map_pair {β : Type _} (f : String → β) (l : List String) (x : String)
    (hx : x ∈ l) : (l.map (fun c => (c, f c))).lookup x = some (f x) := by
  induction l with
  | nil => cases hx
  | cons c t ih =>
      simp only [List.map_cons, List.lookup_cons]
      by_cases h : x = c
      · subst h; simp
      · rw [beq_eq_false_iff_ne.mpr h]
        exact ih ((List.mem_cons.mp hx).resolve_left h)

lemma filterMap_snd_sum (l : List (String × Option ℚ)) :
    (l.filterMap Prod.snd).sum = (l.map (fun p => p.2.getD 0)).sum := by
  induction l with
  | nil => rfl
  | cons a t ih =>
      cases h : a.2 with
      | none => simp [List.filterMap_cons, h, ih]
      | some x => simp [List.filterMap_cons, h, ih]

/-! ### Bridge lemmas: component scoring and subject evaluation -/

lemma scoreComponent_num (headers row : List String) (rowIdx : Nat)
    (s : Subject) (mapping : List (String × String)) (comp colHeader : String)
    (i : Nat) (n : ℚ)
    (hmap : mapping.lookup comp = some colHeader)
    (hidx : headerIndexLookup headers (jsLower colHeader) = some i)
    (hblank : jsTrim (cellAt row i) ≠ "")
    (hab : jsUpper (jsTrim (cellAt row i)) ≠ "AB")
    (hnum : jsNum (cellAt row i) = some n) :
    scoreComponent headers row rowIdx s mapping comp =
      scoreNum (Locus.colRef (rowIdx + 1)) s comp (resolveMax s comp) n [] := by
  simp only [scoreComponent, hmap, hidx, hnum, if_neg hblank, if_neg hab]

lemma scoreComponent_blank (headers row : List String) (rowIdx : Nat)
    (s : Subject) (mapping : List (String × String)) (comp colHeader : String)
    (i : Nat)
    (hmap : mapping.lookup comp = some colHeader)
    (hidx : headerIndexLookup headers (jsLower colHeader) = some i)
    (hblank : jsTrim (cellAt row i) = "") :
    scoreComponent headers row rowIdx s mapping comp =
      scoreNum (Locus.colRef (rowIdx + 1)) s comp (resolveMax s comp) 0
        [⟨DiagKind.BlankTreatedAsZero, Locus.colRef (rowIdx + 1), compField s comp,
          s!"{s.label} {comp} is blank, treated as 0."⟩] := by
  simp only [scoreComponent, hmap, hidx, if_pos hblank]

lemma scoreComponent_absent (headers row : List String) (rowIdx : Nat)
    (s : Subject) (mapping : List (String × String)) (comp colHeader : String)
    (i : Nat)
    (hmap : mapping.lookup comp = some colHeader)
    (hidx : headerIndexLookup headers (jsLower colHeader) = some i)
    (hblank : jsTrim (cellAt row i) ≠ "")
    (hab : jsUpper (jsTrim (cellAt row i)) = "AB") :
    scoreComponent headers row rowIdx s mapping comp =
      scoreNum (Locus.colRef (rowIdx + 1)) s comp (resolveMax s comp) 0
        [⟨DiagKind.AbsentTreatedAsZero, Locus.colRef (rowIdx + 1), compField s comp,
          s!"{s.label} {comp} is marked AB (Absent), treated as 0."⟩] := by
  simp only [scoreComponent, hmap, hidx, if_neg hblank, if_pos hab]

lemma scoreNum_value (loc : Locus) (s : Subject) (comp : String)
    (mv : Option ℚ) (n : ℚ) (w : List Diag) :
    (scoreNum loc s comp mv n w).value = some n := rfl

lemma scoreNum_warns (loc : Locus) (s : Subject) (comp : String)
    (mv : Option ℚ) (n : ℚ) (w : List Diag) :
    (scoreNum loc s comp mv n w).warns = w := rfl

lemma scoreNum_errs_neg (loc : Locus) (s : Subject) (comp : String)
    (mv : Option ℚ) (n : ℚ) (w : List Diag) (h : n < 0) :
    ((scoreNum loc s comp mv n w).errs).map Diag.kind = [DiagKind.NegativeMark] := by
  simp [scoreNum, h]

lemma scoreNum_errs_exceeds (loc : Locus) (s : Subject) (comp : String)
    (mv : Option ℚ) (n : ℚ) (w : List Diag)
    (h0 : ¬ n < 0) (ht : qTruthy mv = true) (hgt : n > mv.getD 0) :
    ((scoreNum loc s comp mv n w).errs).map Diag.kind = [DiagKind.ExceedsComponentMax] := by
  simp [scoreNum, h0, ht, hgt]

lemma scoreNum_errs_nil (loc : Locus) (s : Subject) (comp : String)
    (mv : Option ℚ) (n : ℚ) (w : List Diag)
    (h0 : ¬ n < 0) (h1 : ¬ (qTruthy mv = true ∧ n > mv.getD 0)) :
    (scoreNum loc s comp mv n w).errs = [] := by
  simp only [scoreNum, if_neg h0]
  rw [if_neg]
  intro h
  exact h1 ⟨h.1, h.2⟩

lemma evalSubject_noMapping (tpl : Template) (headers row : List String)
    (rowIdx : Nat) (s : Subject)
    (htm : tpl.columnMappings.lookup s.key = none) :
    evalSubject tpl headers row rowIdx s = .noMapping := by
  simp [evalSubject, htm]

lemma evalSubject_skipped (tpl : Template) (headers row : List String)
    (rowIdx : Nat) (s : Subject) (mapping : List (String × String))
    (htm : tpl.columnMappings.lookup s.key = some mapping)
    (hab : allBlank headers row mapping s = true)
    (hopt : s.optional = true) :
    evalSubject tpl headers row rowIdx s = .skippedOptional := by
  simp [evalSubject, htm, hab, hopt]

lemma evalSubject_requiredBlank (tpl : Template) (headers row : List String)
    (rowIdx : Nat) (s : Subject) (mapping : List (String × String))
    (htm : tpl.columnMappings.lookup s.key = some mapping)
    (hab : allBlank headers row mapping s = true)
    (hopt : s.optional = false) :
    evalSubject tpl headers row rowIdx s = .requiredBlank := by
  simp [evalSubject, htm, hab, hopt]

lemma evalSubject_selected (tpl : Template) (headers row : List String)
    (rowIdx : Nat) (s : Subject) (mapping : List (String × String))
    (htm : tpl.columnMappings.lookup s.key = some mapping)
    (hnb : allBlank headers row mapping s = false) :
    evalSubject tpl headers row rowIdx s =
      .selected (selScore headers row rowIdx s mapping)
        (selErrs headers row rowIdx s mapping)
        (selWarns headers row rowIdx s mapping)
        (selFlag headers row rowIdx s mapping) := by
  simp [evalSubject, htm, hnb]

lemma marksOf_lookup (tpl : Template) (headers row : List String) (rowIdx : Nat)
    (s : Subject) (hs : s ∈ tpl.subjects)
    (hnd : (tpl.subjects.map Subject.key).Nodup) :
    (marksOf tpl headers row rowIdx).lookup s.key =
      scoreOf tpl headers row rowIdx s :=
  lookup_keyed_filterMap (scoreOf tpl headers row rowIdx) tpl.subjects s hs hnd

lemma mem_selectedSubjects (tpl : Template) (headers row : List String)
    (rowIdx : Nat) (s : Subject) (hs : s ∈ tpl.subjects) :
    s ∈ selectedSubjects tpl headers row rowIdx ↔
      isSelected tpl headers row rowIdx s = true := by
  simp [selectedSubjects, List.mem_filter, hs]

lemma scoreNum_errs_kinds (loc : Locus) (s : Subject) (comp : String)
    (mv : Option ℚ) (n : ℚ) (w : List Diag) :
    ∀ e ∈ (scoreNum loc s comp mv n w).errs,
      e.kind = DiagKind.NegativeMark ∨ e.kind = DiagKind.ExceedsComponentMax := by
  intro e he
  simp only [scoreNum] at he
  split at he
  · rw [List.mem_singleton] at he
    subst he
    left
    rfl
  · split at he
    · rw [List.mem_singleton] at he
      subst he
      right
      rfl
    · cases he

lemma scoreNum_no_exceeds_of_not_truthy (loc : Locus) (s : Subject)
    (comp : String) (mv : Option ℚ) (n : ℚ) (w : List Diag)
    (ht : qTruthy mv = false) :
    ∀ e ∈ (scoreNum loc s comp mv n w).errs, e.kind ≠ DiagKind.ExceedsComponentMax := by
  intro e he
  simp only [scoreNum] at he
  split at he
  · rw [List.mem_singleton] at he
    subst he
    simp
  · rw [if_neg (by rw [ht]; simp)] at he
    cases he

lemma processRow_row (tpl : Template) (headers row : List String)
    (rowIdx headerRow : Nat) :
    (processRow tpl headers row rowIdx headerRow).student.row
      = rowIdx + headerRow + 1 := by
  unfold processRow
  dsimp only
  split <;> rfl

lemma map_row_processRow (tpl : Template) (headers : List String)
    (l : List (List String)) (hR : Nat) :
    l.enum.map (fun p => (processRow tpl headers p.2 p.1 hR).student.row)
      = (List.range l.length).map (fun k => k + hR + 1) := by
  have h1 : (fun p : Nat × List String =>
        (processRow tpl headers p.2 p.1 hR).student.row)
      = fun p : Nat × List String => p.1 + hR + 1 :=
    funext fun p => processRow_row tpl headers p.2 p.1 hR
  calc l.enum.map (fun p => (processRow tpl headers p.2 p.1 hR).student.row)
      = l.enum.map (fun p : Nat × List String => p.1 + hR + 1) := by rw [h1]
    _ = (l.enum.map Prod.fst).map (fun k => k + hR + 1) := by
          rw [List.map_map]
          rfl
    _ = (List.range l.length).map (fun k => k + hR + 1) := by
          rw [List.enum_map_fst]

/-! ### Concrete fixtures used by witnesses and counterexamples

The rational operations of Batteries are marked irreducible for elaboration
performance; concrete evaluation of the parser on fixtures needs them to
unfold, so their default reducibility is restored locally. -/

attribute [local semireducible] Rat.add Rat.mul Rat.sub Rat.inv

/-- Subject whose `componentMax` mapping is present but has no entry for
component `C2`. -/
def exHoleSubject : Subject :=
  { key := "sci", label := "Science", maxMarks := 30,
    components := ["C1", "C2"], componentMax := some [("C1", 10)] }

def exHoleMapping : List (String × String) := [("C1", "S1"), ("C2", "S2")]

def exHeadersHole : List String := ["S1", "S2"]

def exRowHole : List String := ["1", "999"]

/-- Three-component subject in the shape of the schema subjects of
`templates.js` (per-component maxima 10, subject maximum 30). -/
def exThreeSubject : Subject :=
  { key := "sci", label := "Science", maxMarks := 30,
    components := ["C1", "C2", "C3"],
    componentMax := some [("C1", 10), ("C2", 10), ("C3", 10)] }

def exThreeMapping : List (String × String) :=
  [("C1", "S1"), ("C2", "S2"), ("C3", "S3")]

def exThreeTpl : Template :=
  { studentFields := [], subjects := [exThreeSubject],
    columnMappings := [("sci", exThreeMapping)], choiceGroups := [],
    grading := ⟨33, []⟩ }

def exHeadersThree : List String := ["S1", "S2", "S3"]

/-- The spec test vector: components 10, AB (mixed case), 8. -/
def exRowAB : List String := ["10", "aB", "8"]

/-- Component overflow test vector: 12 against a component max of 10. -/
def exRowOver : List String := ["12", "3", "4"]

/-- Subject without a `componentMax` property: every component is validated
against the subject `maxMarks`. -/
def exNoCmSubject : Subject :=
  { key := "sci", label := "Science", maxMarks := 30,
    components := ["C1", "C2", "C3"], componentMax := none }

def exNoCmTpl : Template :=
  { studentFields := [], subjects := [exNoCmSubject],
    columnMappings := [("sci", exThreeMapping)], choiceGroups := [],
    grading := ⟨33, []⟩ }

/-- Additive overflow: each component within its max, total 45 over the
subject maximum 30. -/
def exRowSum : List String := ["15", "15", "15"]

/-- A required subject that has no entry in `columnMappings`. -/
def exExtraSubject : Subject :=
  { key := "extra", label := "Extra Subject", maxMarks := 30,
    components := ["C1"], componentMax := none }

def exNoMapTpl : Template :=
  { studentFields := [], subjects := [exThreeSubject, exExtraSubject],
    columnMappings := [("sci", exThreeMapping)], choiceGroups := [],
    grading := ⟨33, []⟩ }

/-- Miniature of the `class11_science` schema: two-component subjects, a
required English and two optional electives in one choice group. -/
def exSubjEnglish : Subject :=
  { key := "english", label := "English", maxMarks := 20,
    components := ["UT1", "UT2"], componentMax := some [("UT1", 10), ("UT2", 10)] }

def exSubjMath : Subject :=
  { key := "math", label := "Mathematics", maxMarks := 20,
    components := ["UT1", "UT2"], componentMax := some [("UT1", 10), ("UT2", 10)],
    optional := true, choiceGroup := some "sci_elective" }

def exSubjBio : Subject :=
  { key := "biology", label := "Biology", maxMarks := 20,
    components := ["UT1", "UT2"], componentMax := some [("UT1", 10), ("UT2", 10)],
    optional := true, choiceGroup := some "sci_elective" }

def exBioMapping : List (String × String) :=
  [("UT1", "BIO_UT1"), ("UT2", "BIO_UT2")]

def exSciTpl : Template :=
  { headerRow := 1,
    studentFields := [("name",
      { label := "Student Name", excelHeader := "STUDENT_NAME", isNumber := false })],
    subjects := [exSubjEnglish, exSubjMath, exSubjBio],
    columnMappings :=
      [("english", [("UT1", "ENGLISH_UT1"), ("UT2", "ENGLISH_UT2")]),
       ("math", [("UT1", "MATH_UT1"), ("UT2", "MATH_UT2")]),
       ("biology", exBioMapping)],
    choiceGroups := [("sci_elective", { min := 1, max := 1, label := "Science Elective" })],
    grading := { passPercent := 33,
                 divisions := [⟨"I", 60⟩, ⟨"II", 48⟩, ⟨"III", 36⟩] } }

def exSciHeaders : List String :=
  ["STUDENT_NAME", "ENGLISH_UT1", "ENGLISH_UT2", "MATH_UT1", "MATH_UT2",
   "BIO_UT1", "BIO_UT2"]

/-- Math elective taken, biology left entirely blank. -/
def exRowAlice : List String := ["Alice", "8", "7", "9", "", "", ""]

/-- Both electives non-blank: the choice group sees count 2. -/
def exRowBob : List String := ["Bob", "8", "7", "9", "5", "6", "6"]

/-- Aggregate 60 percent, but English at 20 percent is below the pass
threshold 33. -/
def exRowFail : List String := ["Eve", "2", "2", "10", "10", "", ""]

/-- Template whose only identity field is absent from the sheet headers. -/
def exIdTpl : Template :=
  { studentFields := [("name", ⟨"Student Name", "STUDENT_NAME", false⟩)],
    subjects := [], columnMappings := [], choiceGroups := [],
    grading := ⟨33, []⟩ }

def exGridMissing : List (List String) := [["WRONG_HEADER", "x"]]

/-- Template with one identity field and no subjects. -/
def exNameTpl : Template :=
  { studentFields := [("name", ⟨"Student Name", "NAME", false⟩)],
    subjects := [], columnMappings := [], choiceGroups := [],
    grading := ⟨33, []⟩ }

/-- Horizontal grid whose middle column is entirely blank: the student
`"Alice"` sits in original column index 2 (1-based position 3). -/
def exGridDropped : List (List String) := [["NAME", "", "Alice"]]

/-! ### C4 -/

/-- C4 counterexample: with `componentMax` present but missing the entry
for `C2`, the cell `"999"` parses to 999, which exceeds the subject
`maxMarks` 30 that the claim says is the default maximum, yet no
`ExceedsComponentMax` (indeed no error at all) is emitted, because line 271
only falls back to `maxMarks` when the whole `componentMax` object is
absent and `maxVal && num > maxVal` skips the check for an `undefined`
max. -/
theorem c4_counterexample :
    jsNum "999" = some 999
    ∧ (999 : ℚ) > exHoleSubject.maxMarks
    ∧ resolveMax exHoleSubject "C2" = none
    ∧ (scoreComponent exHeadersHole exRowHole 0 exHoleSubject exHoleMapping "C2").value
        = some 999
    ∧ (scoreComponent exHeadersHole exRowHole 0 exHoleSubject exHoleMapping "C2").errs
        = [] :=
  ⟨by rfl, by norm_num [exHoleSubject], by rfl, by rfl, by rfl⟩

/-- C4 (amended): a parsed component value is validated against the
resolved maximum, which is `componentMax[component]` when the
`componentMax` mapping is present (so an absent entry gives no maximum and
no check at all) and defaults to the subject `maxMarks` only when the whole
mapping is absent; a nonnegative parsed value strictly greater than a
present nonzero maximum yields exactly one `ExceedsComponentMax` error,
while an absent maximum never yields one. -/
theorem c4_componentMax_resolution (headers row : List String) (rowIdx : Nat)
    (s : Subject) (mapping : List (String × String)) (comp colHeader : String)
    (i : Nat) (n : ℚ)
    (hmap : mapping.lookup comp = some colHeader)
    (hidx : headerIndexLookup headers (jsLower colHeader) = some i)
    (hblank : jsTrim (cellAt row i) ≠ "")
    (hab : jsUpper (jsTrim (cellAt row i)) ≠ "AB")
    (hnum : jsNum (cellAt row i) = some n) :
    (s.componentMax = none → resolveMax s comp = some s.maxMarks)
    ∧ (∀ cm, s.componentMax = some cm → resolveMax s comp = cm.lookup comp)
    ∧ (∀ mx, resolveMax s comp = some mx → mx ≠ 0 → 0 ≤ n → mx < n →
        ((scoreComponent headers row rowIdx s mapping comp).errs).map Diag.kind
          = [DiagKind.ExceedsComponentMax])
    ∧ (resolveMax s comp = none →
        ∀ e ∈ (scoreComponent headers row rowIdx s mapping comp).errs,
          e.kind ≠ DiagKind.ExceedsComponentMax) := by
  refine ⟨fun h => by simp [resolveMax, h], fun cm h => by simp [resolveMax, h], ?_, ?_⟩
  · intro mx hmx hne hnn hlt
    rw [scoreComponent_num headers row rowIdx s mapping comp colHeader i n
      hmap hidx hblank hab hnum]
    refine scoreNum_errs_exceeds _ s comp _ n [] (not_lt.mpr hnn) ?_ ?_
    · rw [hmx]
      simpa [qTruthy] using hne
    · rw [hmx]
      exact hlt
  · intro hmx e he
    rw [scoreComponent_num headers row rowIdx s mapping comp colHeader i n
      hmap hidx hblank hab hnum] at he
    exact scoreNum_no_exceeds_of_not_truthy _ s comp _ n [] (by rw [hmx]; rfl) e he

/-- C4 amended witness at the fixture: the `componentMax` entry for `C2` is
absent, so no `ExceedsComponentMax` is ever emitted for its cell `"999"`. -/
theorem c4_componentMax_resolution_witness :
    resolveMax exHoleSubject "C2" = none
    ∧ ∀ e ∈ (scoreComponent exHeadersHole exRowHole 0 exHoleSubject exHoleMapping "C2").errs,
        e.kind ≠ DiagKind.ExceedsComponentMax :=
  ⟨by rfl,
    (c4_componentMax_resolution exHeadersHole exRowHole 0 exHoleSubject exHoleMapping
      "C2" "S2" 1 999 (by rfl) (by rfl) (by decide) (by decide)
      (by rfl)).2.2.2 (by rfl)⟩

/-! ### C2 -/

/-- C2: a component value parsed from a non-blank, non-AB cell is recorded
unclamped and summed into the subject total even when out of range: a
negative value yields a `NegativeMark` error and a value above the
(positive) resolved maximum yields an `ExceedsComponentMax` error, yet the
value is stored and the subject total is the sum over all stored component
values; independently, whenever that total exceeds the subject `maxMarks` a
`SubjectTotalExceedsMax` error is emitted for the subject, with no
condition on any per-component check. -/
theorem c2_out_of_range_still_recorded (tpl : Template)
    (headers row : List String) (rowIdx rowNum : Nat) (s : Subject)
    (mapping : List (String × String)) (comp colHeader : String) (i : Nat)
    (n mx : ℚ)
    (htm : tpl.columnMappings.lookup s.key = some mapping)
    (hmap : mapping.lookup comp = some colHeader)
    (hidx : headerIndexLookup headers (jsLower colHeader) = some i)
    (hblank : jsTrim (cellAt row i) ≠ "")
    (hab : jsUpper (jsTrim (cellAt row i)) ≠ "AB")
    (hnum : jsNum (cellAt row i) = some n)
    (hmx : resolveMax s comp = some mx) (hmxpos : 0 < mx)
    (hcomp : comp ∈ s.components) :
    ((scoreComponent headers row rowIdx s mapping comp).value = some n)
    ∧ (n < 0 →
        ((scoreComponent headers row rowIdx s mapping comp).errs).map Diag.kind
          = [DiagKind.NegativeMark])
    ∧ (mx < n →
        ((scoreComponent headers row rowIdx s mapping comp).errs).map Diag.kind
          = [DiagKind.ExceedsComponentMax])
    ∧ ((selScore headers row rowIdx s mapping).components.lookup comp
          = some (some n)
        ∧ (selScore headers row rowIdx s mapping).total
            = (s.components.map
                (fun c => ((scoreComponent headers row rowIdx s mapping c).value).getD 0)).sum)
    ∧ (allBlank headers row mapping s = false →
        (selScore headers row rowIdx s mapping).total > s.maxMarks →
        ∃ e ∈ subjectErrs tpl headers row rowIdx rowNum s,
          e.kind = DiagKind.SubjectTotalExceedsMax) := by
  have hsc := scoreComponent_num headers row rowIdx s mapping comp colHeader i n
    hmap hidx hblank hab hnum
  refine ⟨?_, ?_, ?_, ⟨?_, ?_⟩, ?_⟩
  · rw [hsc]
    rfl
  · intro hn
    rw [hsc]
    exact scoreNum_errs_neg _ s comp _ n [] hn
  · intro hgt
    rw [hsc]
    refine scoreNum_errs_exceeds _ s comp _ n [] ?_ ?_ ?_
    · exact not_lt.mpr (le_of_lt (lt_trans hmxpos hgt))
    · rw [hmx]
      simpa [qTruthy] using ne_of_gt hmxpos
    · rw [hmx]
      exact hgt
  · have hval : (scoreComponent headers row rowIdx s mapping comp).value = some n := by
      rw [hsc]
      rfl
    have := lookup_map_pair
      (fun c => (scoreComponent headers row rowIdx s mapping c).value)
      s.components comp hcomp
    simpa [selScore, compValues, hval] using this
  · show ((compValues headers row rowIdx s mapping).filterMap Prod.snd).sum = _
    rw [filterMap_snd_sum]
    simp [compValues, List.map_map]
    rfl
  · intro hnb htot
    rw [subjectErrs, evalSubject_selected tpl headers row rowIdx s mapping htm hnb]
    refine ⟨⟨DiagKind.SubjectTotalExceedsMax, Locus.colRef (rowIdx + 1), s.key,
      s!"{s.label}: total exceeds max marks."⟩, ?_, rfl⟩
    refine List.mem_append_right _ ?_
    rw [if_pos htot]
    exact List.mem_singleton.mpr rfl

/-- C2 witness: 12 against component max 10 is flagged but recorded and
summed (total 19); and components 15,15,15, each within the resolved max 30,
still trigger `SubjectTotalExceedsMax` because the total 45 exceeds the
subject maximum 30, with no component error at all. -/
theorem c2_out_of_range_still_recorded_witness :
    ((scoreComponent exHeadersThree exRowOver 0 exThreeSubject exThreeMapping "C1").value
        = some 12)
    ∧ ((scoreComponent exHeadersThree exRowOver 0 exThreeSubject exThreeMapping "C1").errs.map Diag.kind
        = [DiagKind.ExceedsComponentMax])
    ∧ selTotal exHeadersThree exRowOver 0 exThreeSubject exThreeMapping = 19
    ∧ selErrs exHeadersThree exRowSum 0 exNoCmSubject exThreeMapping = []
    ∧ (∃ e ∈ subjectErrs exNoCmTpl exHeadersThree exRowSum 0 2 exNoCmSubject,
        e.kind = DiagKind.SubjectTotalExceedsMax) := by
  refine ⟨?_, ?_, by decide, by decide, ?_⟩
  · exact (c2_out_of_range_still_recorded exThreeTpl exHeadersThree exRowOver 0 2
      exThreeSubject exThreeMapping "C1" "S1" 0 12 10 (by rfl) (by rfl) (by rfl)
      (by decide) (by decide) (by decide) (by rfl) (by decide) (by decide)).1
  · exact (c2_out_of_range_still_recorded exThreeTpl exHeadersThree exRowOver 0 2
      exThreeSubject exThreeMapping "C1" "S1" 0 12 10 (by rfl) (by rfl) (by rfl)
      (by decide) (by decide) (by decide) (by rfl) (by decide) (by decide)).2.2.1
      (by decide)
  · exact (c2_out_of_range_still_recorded exNoCmTpl exHeadersThree exRowSum 0 2
      exNoCmSubject exThreeMapping "C1" "S1" 0 15 30 (by rfl) (by rfl) (by rfl)
      (by decide) (by decide) (by decide) (by rfl) (by decide) (by decide)).2.2.2.2
      (by decide) (by decide)

/-! ### C6 -/

/-- C6: for a mapped, resolvable component with a nonnegative (or absent)
resolved maximum, a blank cell scores `some 0` with no error and exactly
one `BlankTreatedAsZero` warning, and a cell whose trimmed value equals
`"AB"` case-insensitively scores `some 0` with no error and exactly one
`AbsentTreatedAsZero` warning; a stored `some 0` contributes 0 to the
subject total, which is the sum of stored values. -/
theorem c6_blank_and_absent (headers row : List String) (rowIdx : Nat)
    (s : Subject) (mapping : List (String × String)) (comp colHeader : String)
    (i : Nat)
    (hmap : mapping.lookup comp = some colHeader)
    (hidx : headerIndexLookup headers (jsLower colHeader) = some i)
    (hmx : 0 ≤ (resolveMax s comp).getD 0) :
    (jsTrim (cellAt row i) = "" →
        (scoreComponent headers row rowIdx s mapping comp).value = some 0
        ∧ (scoreComponent headers row rowIdx s mapping comp).errs = []
        ∧ ((scoreComponent headers row rowIdx s mapping comp).warns).map Diag.kind
            = [DiagKind.BlankTreatedAsZero])
    ∧ (jsTrim (cellAt row i) ≠ "" → jsUpper (jsTrim (cellAt row i)) = "AB" →
        (scoreComponent headers row rowIdx s mapping comp).value = some 0
        ∧ (scoreComponent headers row rowIdx s mapping comp).errs = []
        ∧ ((scoreComponent headers row rowIdx s mapping comp).warns).map Diag.kind
            = [DiagKind.AbsentTreatedAsZero]) := by
  have herrs : ∀ w, (scoreNum (Locus.colRef (rowIdx + 1)) s comp
      (resolveMax s comp) 0 w).errs = [] := by
    intro w
    refine scoreNum_errs_nil _ s comp _ 0 w (lt_irrefl 0) ?_
    rintro ⟨_, hgt⟩
    exact absurd hmx (not_le.mpr hgt)
  constructor
  · intro hbl
    rw [scoreComponent_blank headers row rowIdx s mapping comp colHeader i
      hmap hidx hbl]
    exact ⟨rfl, herrs _, rfl⟩
  · intro hbl habs
    rw [scoreComponent_absent headers row rowIdx s mapping comp colHeader i
      hmap hidx hbl habs]
    exact ⟨rfl, herrs _, rfl⟩

/-- C6 witness at the spec test vector `[10, "aB", 8]`: the absent marker
scores 0 with one `AbsentTreatedAsZero` warning, the subject total is 18,
and that warning is the only one for the subject. -/
theorem c6_blank_and_absent_witness :
    ((scoreComponent exHeadersThree exRowAB 0 exThreeSubject exThreeMapping "C2").value
        = some 0
      ∧ (scoreComponent exHeadersThree exRowAB 0 exThreeSubject exThreeMapping "C2").errs
        = []
      ∧ ((scoreComponent exHeadersThree exRowAB 0 exThreeSubject exThreeMapping "C2").warns).map Diag.kind
        = [DiagKind.AbsentTreatedAsZero])
    ∧ selTotal exHeadersThree exRowAB 0 exThreeSubject exThreeMapping = 18
    ∧ (selWarns exHeadersThree exRowAB 0 exThreeSubject exThreeMapping).map Diag.kind
        = [DiagKind.AbsentTreatedAsZero] :=
  ⟨(c6_blank_and_absent exHeadersThree exRowAB 0 exThreeSubject exThreeMapping
      "C2" "S2" 1 (by rfl) (by rfl) (by decide)).2 (by decide) (by decide),
   by decide, by decide⟩

/-! ### C3 -/

/-- C3: the claim is right and the code has a slip.  A row aborted in
Phase A because an identity column is missing records a `MissingColumn`
error but is pushed before `student.computed.hasErrors` is ever assigned
(lines 200-210 return before line 390), so the emitted record carries no
blocking flag at all (`computed` stays the empty object, modelled as
`none`); downstream code filtering on `!s.computed.hasErrors` therefore
treats the errored row as valid, contradicting the repository rule that
rows with validation errors must never reach generation. -/
theorem c3_blocking_flag_bug :
    ((parseExcel exIdTpl exGridMissing).students.map (fun st => st.computed)) = [none]
    ∧ ((parseExcel exIdTpl exGridMissing).errors.map (fun e => e.kind))
        = [DiagKind.MissingColumn] := by
  decide

/-! ### C9 -/

/-- C9 counterexample: in `[["NAME", "", "Alice"]]` the student `"Alice"`
occupies original column index 2 (1-based position 3), the blank column at
index 1 is dropped during normalization, and the emitted record carries
`rowNumber` 2, not 3 — the numbering reflects the normalized grid, not the
original coordinate system. -/
theorem c9_counterexample :
    columnOf exGridDropped 1 = [""]
    ∧ columnOf exGridDropped 2 = ["Alice"]
    ∧ ((parseExcel exNameTpl exGridDropped).students.map
        (fun st => (st.row, st.info)))
      = [(2, [("name", JSVal.str "Alice")])] := by
  decide

/-- C9 (amended): emitted row numbers are the consecutive 1-based positions
in the *normalized* grid (after entirely-blank columns are dropped),
starting right after the header row; they coincide with original input-grid
positions only when no blank column precedes the student. -/
theorem c9_rowNumbers_normalized (tpl : Template) (grid : List (List String))
    (hne : grid ≠ []) (h2 : 2 ≤ maxColsOf grid) :
    ((parseExcel tpl grid).students.map (fun st => st.row))
      = (List.range ((normalizeGrid grid).length - effHeaderRow tpl)).map
          (fun k => k + effHeaderRow tpl + 1) := by
  have hEmpty : grid.isEmpty = false := by
    cases grid with
    | nil => cases hne rfl
    | cons a t => rfl
  have hlt : ¬ maxColsOf grid < 2 := by omega
  simp only [parseExcel]
  rw [if_neg (by simp [hEmpty]), if_neg hlt]
  simp only [List.map_map]
  have hmap := map_row_processRow tpl
    ((((normalizeGrid grid).get? (effHeaderRow tpl - 1)).getD []).map jsTrim)
    ((normalizeGrid grid).drop (effHeaderRow tpl)) (effHeaderRow tpl)
  rw [List.length_drop] at hmap
  exact hmap

/-- C9 amended witness at the dropped-column fixture. -/
theorem c9_rowNumbers_normalized_witness :
    ((parseExcel exNameTpl exGridDropped).students.map (fun st => st.row))
      = (List.range ((normalizeGrid exGridDropped).length - effHeaderRow exNameTpl)).map
          (fun k => k + effHeaderRow exNameTpl + 1) :=
  c9_rowNumbers_normalized exNameTpl exGridDropped (by decide) (by decide)

/-! ### C1 -/

/-- C1: the Phase B decision table.  For a schema subject with a column
mapping: if it is optional and all mapped components are blank it is
excluded entirely (no marks entry, no diagnostic from this subject, not
selected); if it is required and all blank, its error list is exactly one
`RequiredSubjectBlank` and it is likewise excluded from marks and
selection; otherwise it is selected and its score is stored.  `totalMax`
(`computed.maxMarks`) is the sum of `maxMarks` over exactly the selected
subjects, so exclusion from selection is exclusion from `totalMax`.
Blankness (`allBlank`) treats an unmapped header or unresolved column index
as blank, per `componentNonBlank`. -/
theorem c1_subject_selection (tpl : Template) (headers row : List String)
    (rowIdx rowNum headerRow : Nat) (s : Subject)
    (mapping : List (String × String))
    (hs : s ∈ tpl.subjects)
    (hnd : (tpl.subjects.map Subject.key).Nodup)
    (htm : tpl.columnMappings.lookup s.key = some mapping) :
    (s.optional = true → allBlank headers row mapping s = true →
        (marksOf tpl headers row rowIdx).lookup s.key = none
        ∧ subjectErrs tpl headers row rowIdx rowNum s = []
        ∧ subjectWarns tpl headers row rowIdx rowNum s = []
        ∧ s ∉ selectedSubjects tpl headers row rowIdx)
    ∧ (s.optional = false → allBlank headers row mapping s = true →
        (subjectErrs tpl headers row rowIdx rowNum s).map Diag.kind
            = [DiagKind.RequiredSubjectBlank]
        ∧ (marksOf tpl headers row rowIdx).lookup s.key = none
        ∧ s ∉ selectedSubjects tpl headers row rowIdx)
    ∧ (allBlank headers row mapping s = false →
        s ∈ selectedSubjects tpl headers row rowIdx
        ∧ (marksOf tpl headers row rowIdx).lookup s.key
            = some (selScore headers row rowIdx s mapping))
    ∧ (∀ c, (processRow tpl headers row rowIdx headerRow).student.computed = some c →
        c.subjects = selectedSubjects tpl headers row rowIdx
        ∧ c.maxMarks = ((selectedSubjects tpl headers row rowIdx).map
            (fun t => t.maxMarks)).sum) := by
  refine ⟨?_, ?_, ?_, ?_⟩
  · intro hopt hab
    have heval := evalSubject_skipped tpl headers row rowIdx s mapping htm hab hopt
    refine ⟨?_, ?_, ?_, ?_⟩
    · rw [marksOf_lookup tpl headers row rowIdx s hs hnd]
      simp [scoreOf, heval]
    · simp [subjectErrs, heval]
    · simp [subjectWarns, heval]
    · rw [mem_selectedSubjects tpl headers row rowIdx s hs]
      simp [isSelected, heval]
  · intro hopt hab
    have heval := evalSubject_requiredBlank tpl headers row rowIdx s mapping htm hab hopt
    refine ⟨?_, ?_, ?_⟩
    · simp [subjectErrs, heval]
    · rw [marksOf_lookup tpl headers row rowIdx s hs hnd]
      simp [scoreOf, heval]
    · rw [mem_selectedSubjects tpl headers row rowIdx s hs]
      simp [isSelected, heval]
  · intro hnb
    have heval := evalSubject_selected tpl headers row rowIdx s mapping htm hnb
    refine ⟨?_, ?_⟩
    · rw [mem_selectedSubjects tpl headers row rowIdx s hs]
      simp [isSelected, heval]
    · rw [marksOf_lookup tpl headers row rowIdx s hs hnd]
      simp [scoreOf, heval]
  · intro c hc
    unfold processRow at hc
    dsimp only at hc
    split at hc
    · cases hc
    · cases hc
      exact ⟨rfl, rfl⟩

/-- C1 witness: for the student with the biology elective entirely blank,
biology is optional and all blank, yields no marks entry, no diagnostics,
is not selected, and `computed.maxMarks` is 40 (biology's 20 excluded). -/
theorem c1_subject_selection_witness :
    ((marksOf exSciTpl exSciHeaders exRowAlice 0).lookup "biology" = none
      ∧ subjectErrs exSciTpl exSciHeaders exRowAlice 0 2 exSubjBio = []
      ∧ subjectWarns exSciTpl exSciHeaders exRowAlice 0 2 exSubjBio = []
      ∧ exSubjBio ∉ selectedSubjects exSciTpl exSciHeaders exRowAlice 0)
    ∧ ((processRow exSciTpl exSciHeaders exRowAlice 0 1).student.computed.map
        (fun c => c.maxMarks)) = some 40 :=
  ⟨(c1_subject_selection exSciTpl exSciHeaders exRowAlice 0 2 1 exSubjBio
      exBioMapping (by decide) (by decide) (by rfl)).1 rfl (by decide),
   by decide⟩

/-! ### C10 -/

/-- C10: a schema subject with no entry in `columnMappings` is skipped with
a single `UnmappedSubject` warning and no error, leaves `rowHasError`
untouched, gets no marks entry, is not selected (hence contributes nothing
to choice-group tallies, which count only selected subjects), and the
computed aggregates range over exactly the selected subjects. -/
theorem c10_unmapped_subject (tpl : Template) (headers row : List String)
    (rowIdx rowNum headerRow : Nat) (s : Subject)
    (hs : s ∈ tpl.subjects)
    (hnd : (tpl.subjects.map Subject.key).Nodup)
    (htm : tpl.columnMappings.lookup s.key = none) :
    subjectErrs tpl headers row rowIdx rowNum s = []
    ∧ (subjectWarns tpl headers row rowIdx rowNum s).map Diag.kind
        = [DiagKind.UnmappedSubject]
    ∧ subjectFlag tpl headers row rowIdx s = false
    ∧ (marksOf tpl headers row rowIdx).lookup s.key = none
    ∧ s ∉ selectedSubjects tpl headers row rowIdx
    ∧ (∀ c, (processRow tpl headers row rowIdx headerRow).student.computed = some c →
        c.subjects = selectedSubjects tpl headers row rowIdx
        ∧ c.totalMarks = ((marksOf tpl headers row rowIdx).map
            (fun p => p.2.total)).sum
        ∧ c.maxMarks = ((selectedSubjects tpl headers row rowIdx).map
            (fun t => t.maxMarks)).sum) := by
  have heval := evalSubject_noMapping tpl headers row rowIdx s htm
  refine ⟨?_, ?_, ?_, ?_, ?_, ?_⟩
  · simp [subjectErrs, heval]
  · simp [subjectWarns, heval]
  · simp [subjectFlag, heval]
  · rw [marksOf_lookup tpl headers row rowIdx s hs hnd]
    simp [scoreOf, heval]
  · rw [mem_selectedSubjects tpl headers row rowIdx s hs]
    simp [isSelected, heval]
  · intro c hc
    unfold processRow at hc
    dsimp only at hc
    split at hc
    · cases hc
    · cases hc
      exact ⟨rfl, rfl, rfl⟩

/-! ### C5 -/

lemma failedSubjectsOf_eq_nil_iff (tpl : Template) (headers row : List String)
    (rowIdx : Nat) :
    failedSubjectsOf tpl headers row rowIdx = [] ↔
      ∀ s ∈ selectedSubjects tpl headers row rowIdx,
        ∀ sm, (marksOf tpl headers row rowIdx).lookup s.key = some sm →
          ¬ sm.percentage < tpl.grading.passPercent := by
  unfold failedSubjectsOf
  rw [List.map_eq_nil_iff, List.filter_eq_nil_iff]
  constructor
  · intro h s hsmem sm hsm hlt
    have hns := h s hsmem
    rw [hsm] at hns
    simp only [decide_eq_true_eq] at hns
    exact hns hlt
  · intro h s hsmem
    cases hsm : (marksOf tpl headers row rowIdx).lookup s.key with
    | none => simp
    | some sm =>
        simp only [decide_eq_true_eq]
        exact h s hsmem sm hsm

lemma findDivision_eq (divs : List Division) (pct : ℚ)
    (hnames : ∀ d ∈ divs, d.name ≠ "") :
    findDivision divs pct
      = (divs.find? (fun d => decide (pct ≥ d.threshold))).map Division.name := by
  unfold findDivision
  cases hf : divs.find? (fun d => decide (pct ≥ d.threshold)) with
  | none => rfl
  | some d => simp [hnames d (List.mem_of_find?_eq_some hf)]

/-- C5: in a non-aborted row, the student fails exactly when some selected
subject's own percentage is below `grading.passPercent`; a failing student
gets result `FAILED` and no division, and a passing student gets `PASSED`
with the division given by the first entry of `grading.divisions`, taken in
declared order without re-sorting, whose threshold the aggregate percentage
meets or exceeds (inclusive). -/
theorem c5_pass_division (tpl : Template) (headers row : List String)
    (rowIdx headerRow : Nat)
    (hnomiss : missingCols tpl headers = [])
    (hnames : ∀ d ∈ tpl.grading.divisions, d.name ≠ "") :
    ∃ c, (processRow tpl headers row rowIdx headerRow).student.computed = some c
      ∧ (c.failedSubjects = [] ↔
          ∀ s ∈ selectedSubjects tpl headers row rowIdx,
            ∀ sm, (marksOf tpl headers row rowIdx).lookup s.key = some sm →
              ¬ sm.percentage < tpl.grading.passPercent)
      ∧ (c.failedSubjects ≠ [] → c.resultText = "FAILED" ∧ c.division = none)
      ∧ (c.failedSubjects = [] → c.resultText = "PASSED"
          ∧ c.division = (tpl.grading.divisions.find?
              (fun d => decide (c.percentage ≥ d.threshold))).map Division.name) := by
  unfold processRow
  dsimp only
  rw [if_neg (by simp [hnomiss])]
  refine ⟨_, rfl, ?_, ?_, ?_⟩
  · exact failedSubjectsOf_eq_nil_iff tpl headers row rowIdx
  · intro hf
    dsimp only at hf
    exact ⟨by dsimp only; rw [if_pos hf], by dsimp only; rw [if_pos hf]⟩
  · intro hf
    dsimp only at hf
    refine ⟨by dsimp only; rw [if_neg (by simp [hf])], ?_⟩
    dsimp only
    rw [if_neg (by simp [hf]), findDivision_eq _ _ hnames]

/-- C5 witness: aggregate 60 percent (above every division threshold) but
English at 20 percent below the pass threshold 33 still fails the student
and assigns no division. -/
theorem c5_pass_division_witness :
    (((processRow exSciTpl exSciHeaders exRowFail 0 1).student.computed.map
        (fun c => (c.resultText, c.division, c.percentage, c.failedSubjects)))
      = some ("FAILED", none, 60, ["English"]))
    ∧ ∃ c, (processRow exSciTpl exSciHeaders exRowFail 0 1).student.computed = some c
      ∧ (c.failedSubjects = [] ↔
          ∀ s ∈ selectedSubjects exSciTpl exSciHeaders exRowFail 0,
            ∀ sm, (marksOf exSciTpl exSciHeaders exRowFail 0).lookup s.key = some sm →
              ¬ sm.percentage < exSciTpl.grading.passPercent)
      ∧ (c.failedSubjects ≠ [] → c.resultText = "FAILED" ∧ c.division = none)
      ∧ (c.failedSubjects = [] → c.resultText = "PASSED"
          ∧ c.division = (exSciTpl.grading.divisions.find?
              (fun d => decide (c.percentage ≥ d.threshold))).map Division.name) :=
  ⟨by decide, c5_pass_division exSciTpl exSciHeaders exRowFail 0 1 (by decide) (by decide)⟩

/-- C10 witness: a required subject with no `columnMappings` entry is
skipped with one warning and no error, and the row's aggregates cover only
the mapped subject (total 18, max 30). -/
theorem c10_unmapped_subject_witness :
    subjectErrs exNoMapTpl exHeadersThree exRowAB 0 2 exExtraSubject = []
    ∧ (subjectWarns exNoMapTpl exHeadersThree exRowAB 0 2 exExtraSubject).map Diag.kind
        = [DiagKind.UnmappedSubject]
    ∧ (marksOf exNoMapTpl exHeadersThree exRowAB 0).lookup "extra" = none
    ∧ exExtraSubject ∉ selectedSubjects exNoMapTpl exHeadersThree exRowAB 0
    ∧ ((processRow exNoMapTpl exHeadersThree exRowAB 0 1).student.computed.map
        (fun c => (c.totalMarks, c.maxMarks))) = some (18, 30) := by
  have h := c10_unmapped_subject exNoMapTpl exHeadersThree exRowAB 0 2 1
    exExtraSubject (by decide) (by decide) (by rfl)
  exact ⟨h.1, h.2.1, h.2.2.2.1, h.2.2.2.2.1, by decide⟩

/-! ### Diagnostic locus and kind classification, for C7 and C8 -/

lemma scoreNum_errs_row (loc : Locus) (s : Subject) (comp : String)
    (mv : Option ℚ) (n : ℚ) (w : List Diag) :
    ∀ e ∈ (scoreNum loc s comp mv n w).errs, e.row = loc := by
  intro e he
  simp only [scoreNum] at he
  split at he
  · rw [List.mem_singleton] at he
    subst he
    rfl
  · split at he
    · rw [List.mem_singleton] at he
      subst he
      rfl
    · cases he

lemma scoreComponent_errs_row (headers row : List String) (rowIdx : Nat)
    (s : Subject) (mapping : List (String × String)) (comp : String) :
    ∀ e ∈ (scoreComponent headers row rowIdx s mapping comp).errs,
      e.row = Locus.colRef (rowIdx + 1) ∧ e.kind ≠ DiagKind.ChoiceGroupViolation := by
  intro e he
  unfold scoreComponent at he
  split at he
  · cases he
  · split at he
    · dsimp only at he
      rw [List.mem_singleton] at he
      subst he
      exact ⟨rfl, by simp⟩
    · dsimp only at he
      split at he
      · refine ⟨scoreNum_errs_row _ s comp _ 0 _ e he, ?_⟩
        rcases scoreNum_errs_kinds _ s comp _ 0 _ e he with h | h <;> simp [h]
      · split at he
        · refine ⟨scoreNum_errs_row _ s comp _ 0 _ e he, ?_⟩
          rcases scoreNum_errs_kinds _ s comp _ 0 _ e he with h | h <;> simp [h]
        · split at he
          · dsimp only at he
            rw [List.mem_singleton] at he
            subst he
            exact ⟨rfl, by simp⟩
          · refine ⟨scoreNum_errs_row _ s comp _ _ _ e he, ?_⟩
            rcases scoreNum_errs_kinds _ s comp _ _ _ e he with h | h <;> simp [h]

lemma fieldErrs_row_kinds (headers row : List String) (rowIdx : Nat)
    (fieldKey : String) (fd : FieldDef) :
    ∀ e ∈ fieldErrs headers row rowIdx fieldKey fd,
      e.row = Locus.colRef (rowIdx + 1)
      ∧ (e.kind = DiagKind.EmptyRequiredField ∨ e.kind = DiagKind.TypeMismatch) := by
  intro e he
  unfold fieldErrs at he
  split at he
  · cases he
  · dsimp only at he
    rw [List.mem_append] at he
    rcases he with he | he
    · split at he
      · rw [List.mem_singleton] at he
        subst he
        exact ⟨rfl, Or.inl rfl⟩
      · cases he
    · split at he
      · rw [List.mem_singleton] at he
        subst he
        exact ⟨rfl, Or.inr rfl⟩
      · cases he

lemma subjectErrs_row_kinds (tpl : Template) (headers row : List String)
    (rowIdx rowNum : Nat) (s : Subject) :
    ∀ e ∈ subjectErrs tpl headers row rowIdx rowNum s,
      (e.row = Locus.rowNum rowNum ∨ e.row = Locus.colRef (rowIdx + 1))
      ∧ e.kind ≠ DiagKind.ChoiceGroupViolation := by
  intro e he
  unfold subjectErrs at he
  cases hsel : tpl.columnMappings.lookup s.key with
  | none =>
      rw [evalSubject_noMapping tpl headers row rowIdx s hsel] at he
      cases he
  | some mapping =>
      by_cases hab : allBlank headers row mapping s = true
      · by_cases hopt : s.optional = true
        · rw [evalSubject_skipped tpl headers row rowIdx s mapping hsel hab hopt] at he
          cases he
        · rw [evalSubject_requiredBlank tpl headers row rowIdx s mapping hsel hab
            (by simpa using hopt)] at he
          dsimp only at he
          rw [List.mem_singleton] at he
          subst he
          exact ⟨Or.inl rfl, by simp⟩
      · rw [evalSubject_selected tpl headers row rowIdx s mapping hsel
          (by simpa using hab)] at he
        dsimp only at he
        rw [List.mem_append] at he
        rcases he with he | he
        · rcases List.mem_flatMap.mp he with ⟨c, _, hec⟩
          rcases scoreComponent_errs_row headers row rowIdx s mapping c e hec with ⟨hr, hk⟩
          exact ⟨Or.inr hr, hk⟩
        · split at he
          · rw [List.mem_singleton] at he
            subst he
            exact ⟨Or.inr rfl, by simp⟩
          · cases he

lemma choiceErrs_row_kinds (tpl : Template) (headers row : List String)
    (rowIdx : Nat) :
    ∀ e ∈ choiceErrs tpl headers row rowIdx,
      e.row = Locus.colRef (rowIdx + 1) ∧ e.kind = DiagKind.ChoiceGroupViolation := by
  intro e he
  rcases List.mem_flatMap.mp he with ⟨p, _, hep⟩
  dsimp only at hep
  split at hep
  · rw [List.mem_singleton] at hep
    subst hep
    exact ⟨rfl, rfl⟩
  · cases hep

lemma choiceErrs_length (tpl : Template) (headers row : List String)
    (rowIdx : Nat) :
    (choiceErrs tpl headers row rowIdx).length
      = tpl.choiceGroups.countP (fun p =>
          decide (groupCount (selectedSubjects tpl headers row rowIdx) p.1 < p.2.min
            ∨ groupCount (selectedSubjects tpl headers row rowIdx) p.1 > p.2.max)) := by
  unfold choiceErrs
  refine length_flatMap_singleton _ _ _ ?_
  intro p
  dsimp only
  by_cases hc : groupCount (selectedSubjects tpl headers row rowIdx) p.1 < p.2.min
      ∨ groupCount (selectedSubjects tpl headers row rowIdx) p.1 > p.2.max
  · rw [if_pos hc, if_pos (by exact_mod_cast decide_eq_true hc)]
    rfl
  · rw [if_neg hc, if_neg (by simpa using hc)]
    rfl

lemma processRow_errs_eq (tpl : Template) (headers row : List String)
    (rowIdx headerRow : Nat) (hnomiss : missingCols tpl headers = []) :
    (processRow tpl headers row rowIdx headerRow).errs
      = phaseAErrs tpl headers row rowIdx
        ++ tpl.subjects.flatMap
            (subjectErrs tpl headers row rowIdx (rowIdx + headerRow + 1))
        ++ choiceErrs tpl headers row rowIdx := by
  unfold processRow
  dsimp only
  rw [if_neg (by simp [hnomiss])]

lemma processRow_errs_abort (tpl : Template) (headers row : List String)
    (rowIdx headerRow : Nat) (hmiss : missingCols tpl headers ≠ []) :
    (processRow tpl headers row rowIdx headerRow).errs
      = phaseAErrs tpl headers row rowIdx
        ++ [⟨DiagKind.MissingColumn, Locus.rowNum (rowIdx + headerRow + 1), "info",
            "Missing required columns: "
              ++ String.intercalate ", " (missingCols tpl headers)⟩] := by
  unfold processRow
  dsimp only
  rw [if_pos hmiss]

lemma processRow_errs_row (tpl : Template) (headers row : List String)
    (rowIdx headerRow : Nat) :
    ∀ e ∈ (processRow tpl headers row rowIdx headerRow).errs,
      e.row = Locus.rowNum (rowIdx + headerRow + 1)
        ∨ e.row = Locus.colRef (rowIdx + 1) := by
  intro e he
  by_cases hm : missingCols tpl headers = []
  · rw [processRow_errs_eq tpl headers row rowIdx headerRow hm] at he
    rw [List.mem_append] at he
    rcases he with he | he
    · rw [List.mem_append] at he
      rcases he with he | he
      · rcases List.mem_flatMap.mp he with ⟨p, _, hep⟩
        exact Or.inr (fieldErrs_row_kinds headers row rowIdx p.1 p.2 e hep).1
      · rcases List.mem_flatMap.mp he with ⟨s, _, hes⟩
        exact (subjectErrs_row_kinds tpl headers row rowIdx _ s e hes).1
    · exact Or.inr (choiceErrs_row_kinds tpl headers row rowIdx e he).1
  · rw [processRow_errs_abort tpl headers row rowIdx headerRow hm] at he
    rw [List.mem_append] at he
    rcases he with he | he
    · rcases List.mem_flatMap.mp he with ⟨p, _, hep⟩
      exact Or.inr (fieldErrs_row_kinds headers row rowIdx p.1 p.2 e hep).1
    · rw [List.mem_singleton] at he
      subst he
      exact Or.inl rfl

/-! ### C7 -/

/-- C7: in a non-aborted row, the number of `ChoiceGroupViolation` errors
equals the number of declared choice groups whose tally of Phase-B-selected
subjects lies outside the inclusive `[min, max]` range — one error per
violating group and none otherwise — and each violating group's error
reports the observed count (carried in `mkChoiceDiag`'s message). -/
theorem c7_choice_group_validation (tpl : Template) (headers row : List String)
    (rowIdx headerRow : Nat) (hnomiss : missingCols tpl headers = []) :
    ((processRow tpl headers row rowIdx headerRow).errs.countP
        (fun e => e.kind == DiagKind.ChoiceGroupViolation)
      = tpl.choiceGroups.countP (fun p =>
          decide (groupCount (selectedSubjects tpl headers row rowIdx) p.1 < p.2.min
            ∨ groupCount (selectedSubjects tpl headers row rowIdx) p.1 > p.2.max)))
    ∧ ∀ g d, (g, d) ∈ tpl.choiceGroups →
        (groupCount (selectedSubjects tpl headers row rowIdx) g < d.min
          ∨ groupCount (selectedSubjects tpl headers row rowIdx) g > d.max) →
        mkChoiceDiag rowIdx d (groupCount (selectedSubjects tpl headers row rowIdx) g)
          ∈ (processRow tpl headers row rowIdx headerRow).errs := by
  constructor
  · rw [processRow_errs_eq tpl headers row rowIdx headerRow hnomiss,
      List.countP_append, List.countP_append]
    have hA : (phaseAErrs tpl headers row rowIdx).countP
        (fun e => e.kind == DiagKind.ChoiceGroupViolation) = 0 := by
      refine List.countP_eq_zero.mpr ?_
      intro e he
      rcases List.mem_flatMap.mp he with ⟨p, _, hep⟩
      rcases (fieldErrs_row_kinds headers row rowIdx p.1 p.2 e hep).2 with hk | hk <;>
        simp [hk]
    have hB : (tpl.subjects.flatMap
        (subjectErrs tpl headers row rowIdx (rowIdx + headerRow + 1))).countP
        (fun e => e.kind == DiagKind.ChoiceGroupViolation) = 0 := by
      refine List.countP_eq_zero.mpr ?_
      intro e he
      rcases List.mem_flatMap.mp he with ⟨s, _, hes⟩
      have hk := (subjectErrs_row_kinds tpl headers row rowIdx _ s e hes).2
      simpa using hk
    have hD : (choiceErrs tpl headers row rowIdx).countP
        (fun e => e.kind == DiagKind.ChoiceGroupViolation)
        = (choiceErrs tpl headers row rowIdx).length := by
      refine List.countP_eq_length.mpr ?_
      intro e he
      simp [(choiceErrs_row_kinds tpl headers row rowIdx e he).2]
    rw [hA, hB, hD, choiceErrs_length]
    omega
  · intro g d hmem hviol
    rw [processRow_errs_eq tpl headers row rowIdx headerRow hnomiss]
    refine List.mem_append.mpr (Or.inr ?_)
    unfold choiceErrs
    refine List.mem_flatMap.mpr ⟨(g, d), hmem, ?_⟩
    dsimp only
    rw [if_pos hviol]
    exact List.mem_singleton.mpr rfl

/-- C7 witness: the spec's choice-group vectors on the science-elective
group `{min 1, max 1}`: both electives filled gives exactly one violation
reporting count 2; neither gives exactly one reporting count 0; exactly one
elective gives none. -/
theorem c7_choice_group_validation_witness :
    ((processRow exSciTpl exSciHeaders exRowBob 0 1).errs.countP
        (fun e => e.kind == DiagKind.ChoiceGroupViolation) = 1)
    ∧ groupCount (selectedSubjects exSciTpl exSciHeaders exRowBob 0) "sci_elective" = 2
    ∧ mkChoiceDiag 0 ⟨1, 1, "Science Elective"⟩ 2
        ∈ (processRow exSciTpl exSciHeaders exRowBob 0 1).errs
    ∧ ((processRow exSciTpl exSciHeaders exRowFail 0 1).errs.countP
        (fun e => e.kind == DiagKind.ChoiceGroupViolation) = 0)
    ∧ groupCount (selectedSubjects exSciTpl exSciHeaders exRowFail 0) "sci_elective" = 1 := by
  refine ⟨?_, by decide, ?_, ?_, by decide⟩
  · rw [(c7_choice_group_validation exSciTpl exSciHeaders exRowBob 0 1 (by decide)).1]
    decide
  · exact (c7_choice_group_validation exSciTpl exSciHeaders exRowBob 0 1 (by decide)).2
      "sci_elective" ⟨1, 1, "Science Elective"⟩ (by decide) (by decide)
  · rw [(c7_choice_group_validation exSciTpl exSciHeaders exRowFail 0 1 (by decide)).1]
    decide

/-! ### C8 -/

/-- C8: a nonempty grid with fewer than 2 meaningful columns parses to an
empty record list with exactly one top-level `StructuralError` whose row is
0, returned as data; and whenever the structural check passes, no emitted
error is global: every diagnostic of the per-row phase carries a row
number of at least 2 or a column reference, never row 0. -/
theorem c8_structural_failure (tpl : Template) (grid : List (List String))
    (hne : grid ≠ []) :
    (maxColsOf grid < 2 →
        parseExcel tpl grid
          = { students := [],
              errors := [⟨DiagKind.StructuralError, Locus.rowNum 0, "data",
                "No student data columns found. Ensure you are filling data into columns."⟩],
              warnings := [] })
    ∧ (2 ≤ maxColsOf grid →
        ∀ e ∈ (parseExcel tpl grid).errors, e.row ≠ Locus.rowNum 0) := by
  have hEmpty : grid.isEmpty = false := by
    cases grid with
    | nil => cases hne rfl
    | cons a t => rfl
  constructor
  · intro hlt
    unfold parseExcel
    rw [if_neg (by simp [hEmpty]), if_pos hlt]
  · intro h2 e he
    unfold parseExcel at he
    rw [if_neg (by simp [hEmpty]), if_neg (by omega)] at he
    dsimp only at he
    rcases List.mem_flatMap.mp he with ⟨o, ho, hep⟩
    rcases List.mem_map.mp ho with ⟨p, _, rfl⟩
    have hrow := processRow_errs_row tpl _ p.2 p.1 (effHeaderRow tpl) e hep
    have hpos : 1 ≤ effHeaderRow tpl := by
      unfold effHeaderRow
      split <;> omega
    rcases hrow with hr | hr
    · rw [hr]
      intro hcon
      injection hcon with h
      omega
    · rw [hr]
      intro hcon
      cases hcon

/-- C8 witness: a single-column grid (no student data) yields exactly the
row-0 structural error and no records. -/
theorem c8_structural_failure_witness :
    parseExcel exNameTpl [["x"]]
      = { students := [],
          errors := [⟨DiagKind.StructuralError, Locus.rowNum 0, "data",
            "No student data columns found. Ensure you are filling data into columns."⟩],
          warnings := [] } :=
  (c8_structural_failure exNameTpl [["x"]] (by decide)).1 (by decide)

end Vpps
